import Mathlib

/-!
Verification of the GitHub repo-upvotes fetching core.

This file gives a shallow embedding of the API-fetching layer of the
repository (reaction aggregation, query building, HTTP status mapping,
and both pagination strategies: the combined-query loop of
`src/github-api.ts` and the count-first per-kind loops of the evolved
variant), plus the pure sorting helper `sortByReactions`, and proves
the specification claims about them.

Machine numbers (JS `number` values that hold integer counts and item
numbers) are modelled as `Int`; server-reported total counts, which are
non-negative, as `Nat`.  Asynchronous network calls are modelled by a
server oracle `Nat → HttpResp _` giving the response to the n-th request
of a loop; `fetch` rejections/HTTP handling follow the source's
`makeGraphQLRequest`.  Thrown JS exceptions are modelled with
`Except String`, matching the source which throws `Error` values whose
`message` is inspected by the catch blocks.
-/

/-- One entry of `reactionGroups`: `content` and `users.totalCount`. -/
structure ReactionGroup where
  content : String
  count : Int
deriving DecidableEq, Repr

/-- Raw API node as consumed by the fetch loops: the fields read by the
`map` transforms plus `reactions.totalCount` and `reactionGroups`
(the latter may be absent, `node.reactionGroups || []`). -/
structure RawNode where
  number : Int
  title : String
  url : String
  state : String
  createdAt : String
  reactionsTotalCount : Int
  reactionGroups : Option (List ReactionGroup)
deriving DecidableEq, Repr

/-- The `Reaction` summary produced by `calculateReactionCounts`. -/
structure Reaction where
  totalCount : Int
  positiveCount : Int
  negativeCount : Int
deriving DecidableEq, Repr

/-- A transformed `Issue` / `PullRequest` item. -/
structure Item where
  number : Int
  title : String
  url : String
  state : String
  createdAt : String
  reactions : Reaction
deriving DecidableEq, Repr

/-- One step of the `for (const group of node.reactionGroups || [])` loop:
the `switch (group.content)` with its fall-through case lists.  The
accumulator is the pair `(positiveCount, negativeCount)`. -/
def reactionStep (acc : Int × Int) (g : ReactionGroup) : Int × Int :=
  if g.content = "THUMBS_UP" ∨ g.content = "HEART" ∨ g.content = "HOORAY" ∨
      g.content = "ROCKET" ∨ g.content = "EYES" ∨ g.content = "LAUGH" then
    (acc.1 + g.count, acc.2)
  else if g.content = "THUMBS_DOWN" ∨ g.content = "CONFUSED" then
    (acc.1, acc.2 + g.count)
  else
    acc

/-- Embedding of `calculateReactionCounts` (identical in both variants of
the module): fold the switch over `node.reactionGroups || []` starting
from `(0, 0)` and copy `node.reactions.totalCount` through. -/
def calculateReactionCounts (node : RawNode) : Reaction :=
  let p := (node.reactionGroups.getD []).foldl reactionStep (0, 0)
  ⟨node.reactionsTotalCount, p.1, p.2⟩

/-- The node-to-item transform applied by every fetch loop
(`issues.nodes.map(...)` / `pullRequests.nodes.map(...)`). -/
def transformNode (node : RawNode) : Item :=
  ⟨node.number, node.title, node.url, node.state, node.createdAt,
    calculateReactionCounts node⟩

/-- The positive content kinds of the switch, in source order. -/
def positiveContents : List String :=
  ["THUMBS_UP", "HEART", "HOORAY", "ROCKET", "EYES", "LAUGH"]

/-- The negative content kinds of the switch. -/
def negativeContents : List String := ["THUMBS_DOWN", "CONFUSED"]

/-- Boolean test for a positive content kind. -/
def isPositiveContent (s : String) : Bool :=
  s == "THUMBS_UP" || s == "HEART" || s == "HOORAY" ||
    s == "ROCKET" || s == "EYES" || s == "LAUGH"

/-- Boolean test for a negative content kind. -/
def isNegativeContent (s : String) : Bool :=
  s == "THUMBS_DOWN" || s == "CONFUSED"

/-- Sum of the `users.totalCount` fields of a group list. -/
def groupCountSum (gs : List ReactionGroup) : Int :=
  (gs.map ReactionGroup.count).sum

/-- Sum of the counts of the positively classified groups. -/
def posSum (gs : List ReactionGroup) : Int :=
  groupCountSum (gs.filter fun g => isPositiveContent g.content)

/-- Sum of the counts of the negatively classified groups. -/
def negSum (gs : List ReactionGroup) : Int :=
  groupCountSum (gs.filter fun g => isNegativeContent g.content)

/-- Issue-state list chosen by `buildQuery` of `github-api.ts`
(`switch (stateFilter)` with `case 'all': default:` fused).  The
`LoadStateFilter` strings are modelled as arbitrary strings so that the
default arm of the switch is represented. -/
def buildQueryIssueStates (stateFilter : String) : String :=
  if stateFilter = "open" then "[OPEN]"
  else if stateFilter = "closed" then "[CLOSED]"
  else "[OPEN, CLOSED]"

/-- PR-state list chosen by `buildQuery` of `github-api.ts`. -/
def buildQueryPrStates (stateFilter : String) : String :=
  if stateFilter = "open" then "[OPEN]"
  else if stateFilter = "closed" then "[CLOSED, MERGED]"
  else "[OPEN, CLOSED, MERGED]"

/-- Issue-state list of `buildCountQuery` (conditional-expression chain). -/
def buildCountQueryIssueStates (stateFilter : String) : String :=
  if stateFilter = "open" then "[OPEN]"
  else if stateFilter = "closed" then "[CLOSED]"
  else "[OPEN, CLOSED]"

/-- PR-state list of `buildCountQuery`. -/
def buildCountQueryPrStates (stateFilter : String) : String :=
  if stateFilter = "open" then "[OPEN]"
  else if stateFilter = "closed" then "[CLOSED, MERGED]"
  else "[OPEN, CLOSED, MERGED]"

/-- State list of `buildIssuesQuery` (conditional-expression chain). -/
def buildIssuesQueryStates (stateFilter : String) : String :=
  if stateFilter = "open" then "[OPEN]"
  else if stateFilter = "closed" then "[CLOSED]"
  else "[OPEN, CLOSED]"

/-- State list of `buildPullRequestsQuery` (if/else-if/else chain). -/
def buildPullRequestsQueryStates (stateFilter : String) : String :=
  if stateFilter = "open" then "[OPEN]"
  else if stateFilter = "closed" then "[CLOSED, MERGED]"
  else "[OPEN, CLOSED, MERGED]"

/-- The error taxonomy of `APIError.type`. -/
inductive ErrorType where
  | NOT_FOUND
  | RATE_LIMIT
  | UNAUTHORIZED
  | NETWORK
  | UNKNOWN
deriving DecidableEq, Repr

/-- Embedding of `APIError`. -/
structure APIError where
  message : String
  type : ErrorType
deriving DecidableEq, Repr

/-- One entry of a GraphQL `errors` array. -/
structure GQLError where
  message : String
  type : Option String
deriving DecidableEq, Repr

/-- Embedding of `pageInfo`. -/
structure PageInfo where
  hasNextPage : Bool
  endCursor : Option String
deriving DecidableEq, Repr

/-- A paged connection: `nodes` plus `pageInfo`. -/
structure Connection where
  nodes : List RawNode
  pageInfo : PageInfo
deriving DecidableEq, Repr

/-- Body of a response to a single-kind paged query
(`buildIssuesQuery` / `buildPullRequestsQuery`): an optional `errors`
array (modelled as a list, empty meaning absent) and
`data?.repository` holding the requested connection when present. -/
structure KindResponse where
  errors : List GQLError
  repository : Option Connection
deriving DecidableEq, Repr

/-- Totals reported by the count query. -/
structure CountRepo where
  issuesTotalCount : Nat
  prsTotalCount : Nat
deriving DecidableEq, Repr

/-- Body of a response to `buildCountQuery`. -/
structure CountResponse where
  errors : List GQLError
  repository : Option CountRepo
deriving DecidableEq, Repr

/-- Repository object of a combined (issues + PRs) query response. -/
structure RepoData where
  issues : Connection
  pullRequests : Connection
deriving DecidableEq, Repr

/-- Body of a response to the combined `buildQuery`. -/
structure CombinedResponse where
  errors : List GQLError
  repository : Option RepoData
deriving DecidableEq, Repr

/-- An HTTP response: status code plus the parsed JSON body. -/
structure HttpResp (α : Type) where
  status : Nat
  body : α

/-- The `response.ok` predicate of the fetch API: status in 200..299. -/
def httpOk (status : Nat) : Bool := 200 ≤ status && status ≤ 299

/-- Embedding of `makeGraphQLRequest` (identical in both variants): on a
non-ok status throw `UNAUTHORIZED` for 401, `RATE_LIMIT` for 403 and
`NETWORK` otherwise; on an ok status return the parsed body.  A thrown
`Error` is modelled as `Except.error` carrying its message. -/
def makeGraphQLRequest {α : Type} (r : HttpResp α) : Except String α :=
  if httpOk r.status then .ok r.body
  else if r.status = 401 then .error "UNAUTHORIZED"
  else if r.status = 403 then .error "RATE_LIMIT"
  else .error "NETWORK"

/-- Embedding of `handleFetchError` of the count-first variant.  The
catch block of `fetchAllPages` in `github-api.ts` performs the same
message-to-error mapping inline with identical strings, so both catch
sites are modelled by this one function.  (The `error instanceof Error`
test is always true in the model, since every modelled throw carries a
message string.) -/
def handleFetchError (msg : String) : APIError :=
  if msg = "UNAUTHORIZED" then
    ⟨"Invalid GitHub token. Please check your token and try again.", .UNAUTHORIZED⟩
  else if msg = "RATE_LIMIT" then
    ⟨"GitHub API rate limit exceeded. Please try again later or use a token.", .RATE_LIMIT⟩
  else if msg = "NETWORK" then
    ⟨"Network error. Please check your connection and try again.", .NETWORK⟩
  else ⟨msg, .UNKNOWN⟩

/-- The message of the error thrown by `makeGraphQLRequest` for a
non-ok status, read off from its if/else chain. -/
def statusErrorMessage (status : Nat) : String :=
  if status = 401 then "UNAUTHORIZED"
  else if status = 403 then "RATE_LIMIT"
  else "NETWORK"

/-- Result of one per-kind sequential loop
(`fetchAllIssuesParallel` / `fetchAllPullRequestsParallel`).  `outcome`
is the `{data}`-or-`{error}` value returned, `requests` the number of
page requests issued, and `events` the sequence of cumulative counts
passed to the per-kind progress callback, in order. -/
inductive KindOutcome where
  | success (data : List Item)
  | failure (err : APIError)
deriving DecidableEq, Repr

structure LoopResult where
  outcome : KindOutcome
  requests : Nat
  events : List Nat
deriving DecidableEq, Repr

/-- Embedding of the `for (let page = 0; page < numPages; page++)` loop
of `fetchAllIssuesParallel` (and, identically, of
`fetchAllPullRequestsParallel`).  The server oracle gives the HTTP
response to the n-th request of this loop; `acc` is the number of items
accumulated so far (`allIssues.length` before this iteration); `cursor`
is the cursor variable (forwarded to the API by the source, tracked here
for fidelity; the oracle is addressed by request index).  A throw at any
iteration aborts the whole loop through the surrounding try/catch, so a
failure discards every accumulated item. -/
def kindLoop (server : Nat → HttpResp KindResponse) :
    Nat → Nat → Option String → Nat → LoopResult
  | _, _, _, 0 => ⟨.success [], 0, []⟩
  | i, acc, cursor, rem + 1 =>
    match makeGraphQLRequest (server i) with
    | .error msg => ⟨.failure (handleFetchError msg), 1, []⟩
    | .ok resp =>
      match resp.errors with
      | e :: _ => ⟨.failure (handleFetchError e.message), 1, []⟩
      | [] =>
        match resp.repository with
        | none => ⟨.failure (handleFetchError "Repository not found"), 1, []⟩
        | some conn =>
          if conn.nodes.isEmpty then ⟨.success [], 1, []⟩
          else
            let items := conn.nodes.map transformNode
            let newAcc := acc + items.length
            if conn.pageInfo.hasNextPage then
              let r := kindLoop server (i + 1) newAcc conn.pageInfo.endCursor rem
              match r.outcome with
              | .success rest => ⟨.success (items ++ rest), r.requests + 1, newAcc :: r.events⟩
              | .failure e => ⟨.failure e, r.requests + 1, newAcc :: r.events⟩
            else ⟨.success items, 1, [newAcc]⟩

/-- Embedding of `fetchAllIssuesParallel`: return immediately on a zero
total, else run the sequential page loop for
`numPages = Math.ceil(totalCount / pageSize)` pages with `pageSize = 100`. -/
def fetchAllIssuesParallel (totalCount : Nat)
    (server : Nat → HttpResp KindResponse) : LoopResult :=
  if totalCount = 0 then ⟨.success [], 0, []⟩
  else kindLoop server 0 0 none ((totalCount + 100 - 1) / 100)

/-- Embedding of `fetchAllPullRequestsParallel`; its body is the same
loop as `fetchAllIssuesParallel` applied to the pull-request connection
of its own query. -/
def fetchAllPullRequestsParallel (totalCount : Nat)
    (server : Nat → HttpResp KindResponse) : LoopResult :=
  if totalCount = 0 then ⟨.success [], 0, []⟩
  else kindLoop server 0 0 none ((totalCount + 100 - 1) / 100)

/-- Embedding of `FetchResult` (the `FetchOutcome` of the spec). -/
structure FetchResult where
  issues : List Item
  pullRequests : List Item
  error : Option APIError
deriving DecidableEq, Repr

/-- Embedding of `fetchAllPages` of the count-first variant: issue the
count query, map its errors, then run the two per-kind loops and merge.
`Promise.all` interleaves the two loops; the model emits the progress
pairs of the issues loop (as `(count, 0)`) followed by those of the PR
loop (as `(0, count)`), one admissible schedule of the concurrent
execution — each per-kind projection of the trace is
schedule-independent.  The second component is that progress trace. -/
def fetchAllPagesB (countResp : HttpResp CountResponse)
    (issueServer prServer : Nat → HttpResp KindResponse) :
    FetchResult × List (Nat × Nat) :=
  match makeGraphQLRequest countResp with
  | .error msg => (⟨[], [], some (handleFetchError msg)⟩, [])
  | .ok resp =>
    match resp.errors with
    | e :: _ =>
      if e.type = some "NOT_FOUND" then
        (⟨[], [], some ⟨"Repository not found. Please check the owner/repo format.",
          .NOT_FOUND⟩⟩, [])
      else (⟨[], [], some (handleFetchError e.message)⟩, [])
    | [] =>
      match resp.repository with
      | none =>
        (⟨[], [], some ⟨"Repository not found or is private.", .NOT_FOUND⟩⟩, [])
      | some counts =>
        let ir := fetchAllIssuesParallel counts.issuesTotalCount issueServer
        let pr := fetchAllPullRequestsParallel counts.prsTotalCount prServer
        let evs := ir.events.map (fun c => (c, 0)) ++ pr.events.map (fun c => (0, c))
        match ir.outcome with
        | .failure e => (⟨[], [], some e⟩, evs)
        | .success issues =>
          match pr.outcome with
          | .failure e => (⟨[], [], some e⟩, evs)
          | .success prs => (⟨issues, prs, none⟩, evs)

/-- Embedding of the `while (hasMoreIssues || hasMorePRs)` loop of
`fetchAllPages` in `github-api.ts` (combined-query variant).  State:
request index, accumulated issues and PRs, the two cursors, the two
has-more flags; `fuel` bounds the number of remaining iterations the
model can take (`none` means the bound was hit with the loop still
running).  The result carries the returned `FetchResult`, the sequence
of `(issuesCount, prsCount)` pairs passed to the progress callback, and
the number of requests issued. -/
def loopA (server : Nat → HttpResp CombinedResponse) :
    Nat → Nat → List Item → List Item → Option String → Option String →
    Bool → Bool → Option (FetchResult × List (Nat × Nat) × Nat)
  | 0, _, aI, aP, _, _, hI, hP =>
    if !(hI || hP) then some (⟨aI, aP, none⟩, [], 0) else none
  | fuel + 1, i, aI, aP, iC, pC, hI, hP =>
    if !(hI || hP) then some (⟨aI, aP, none⟩, [], 0)
    else
      match makeGraphQLRequest (server i) with
      | .error msg => some (⟨[], [], some (handleFetchError msg)⟩, [], 1)
      | .ok resp =>
        match resp.errors with
        | e :: _ =>
          if e.type = some "NOT_FOUND" then
            some (⟨[], [], some ⟨"Repository not found. Please check the owner/repo format.",
              .NOT_FOUND⟩⟩, [], 1)
          else some (⟨[], [], some (handleFetchError e.message)⟩, [], 1)
        | [] =>
          match resp.repository with
          | none =>
            some (⟨[], [], some ⟨"Repository not found or is private.", .NOT_FOUND⟩⟩, [], 1)
          | some repo =>
            let aI' := if hI && !repo.issues.nodes.isEmpty then
                aI ++ repo.issues.nodes.map transformNode else aI
            let hI' := if hI && !repo.issues.nodes.isEmpty then
                repo.issues.pageInfo.hasNextPage else false
            let iC' := if hI && !repo.issues.nodes.isEmpty then
                repo.issues.pageInfo.endCursor else iC
            let aP' := if hP && !repo.pullRequests.nodes.isEmpty then
                aP ++ repo.pullRequests.nodes.map transformNode else aP
            let hP' := if hP && !repo.pullRequests.nodes.isEmpty then
                repo.pullRequests.pageInfo.hasNextPage else false
            let pC' := if hP && !repo.pullRequests.nodes.isEmpty then
                repo.pullRequests.pageInfo.endCursor else pC
            match loopA server fuel (i + 1) aI' aP' iC' pC' hI' hP' with
            | none => none
            | some (res, evs, n) =>
              some (res, (aI'.length, aP'.length) :: evs, n + 1)

/-- Embedding of `fetchAllPages` of `github-api.ts`: run the combined
loop from the initial state (`allIssues = allPRs = []`, null cursors,
both has-more flags true). -/
def fetchAllPagesA (server : Nat → HttpResp CombinedResponse) (fuel : Nat) :
    Option (FetchResult × List (Nat × Nat) × Nat) :=
  loopA server fuel 0 [] [] none none true true

/-- Embedding of the exported orchestrator `fetchRepositoryData` of
`github-api.ts`: it logs and returns the `fetchAllPages` result
unchanged, so no exception value escapes it. -/
def fetchRepositoryDataA (server : Nat → HttpResp CombinedResponse) (fuel : Nat) :
    Option (FetchResult × List (Nat × Nat) × Nat) :=
  fetchAllPagesA server fuel

/-- Embedding of the exported orchestrator `fetchRepositoryData` of the
count-first variant. -/
def fetchRepositoryDataB (countResp : HttpResp CountResponse)
    (issueServer prServer : Nat → HttpResp KindResponse) :
    FetchResult × List (Nat × Nat) :=
  fetchAllPagesB countResp issueServer prServer

/-- A page response on which a per-kind loop iteration succeeds: ok
HTTP status, no GraphQL errors, repository object present. -/
def CleanPage (r : HttpResp KindResponse) : Prop :=
  httpOk r.status = true ∧ r.body.errors = [] ∧ r.body.repository.isSome = true

instance (r : HttpResp KindResponse) : Decidable (CleanPage r) := by
  unfold CleanPage; infer_instance

/-- The connection carried by a clean page response. -/
def pageConn (r : HttpResp KindResponse) : Connection :=
  r.body.repository.getD ⟨[], ⟨false, none⟩⟩

/-- Concatenation, in order, of the transformed node lists of the
first `n` pages served from request index `i` on. -/
def collectPages (server : Nat → HttpResp KindResponse) : Nat → Nat → List Item
  | _, 0 => []
  | i, n + 1 =>
    (pageConn (server i)).nodes.map transformNode ++ collectPages server (i + 1) n

/-- The comparator passed to `Array.prototype.sort` by `sortByReactions`:
positive-reaction difference `b - a` when nonzero, else item-number
difference `b - a`. -/
def compareItems (a b : Item) : Int :=
  if b.reactions.positiveCount - a.reactions.positiveCount ≠ 0 then
    b.reactions.positiveCount - a.reactions.positiveCount
  else b.number - a.number

/-- The ordering induced by the comparator: `a` may precede `b` exactly
when the comparator does not demand the swap, `compareItems a b ≤ 0`. -/
def itemLe (a b : Item) : Prop := compareItems a b ≤ 0

instance : DecidableRel itemLe := fun a b =>
  inferInstanceAs (Decidable (compareItems a b ≤ 0))

instance : IsTotal Item itemLe :=
  ⟨by
    intro a b
    simp only [itemLe, compareItems]
    by_cases h : b.reactions.positiveCount = a.reactions.positiveCount <;>
      simp [h] <;> omega⟩

instance : IsTrans Item itemLe :=
  ⟨by
    intro a b c hab hbc
    simp only [itemLe, compareItems] at *
    by_cases h1 : b.reactions.positiveCount = a.reactions.positiveCount <;>
      by_cases h2 : c.reactions.positiveCount = b.reactions.positiveCount <;>
      by_cases h3 : c.reactions.positiveCount = a.reactions.positiveCount <;>
      simp [h1, h2, h3] at * <;> omega⟩

/-- Embedding of `sortByReactions` viewed as a pure function on the
element sequence: `Array.prototype.sort` is required by the language
specification to produce a stable reordering that is sorted with
respect to the comparator, modelled here by a stable comparison sort
(insertion sort) under `itemLe`. -/
def sortByReactions (items : List Item) : List Item :=
  items.insertionSort itemLe

/-- A heap of JS arrays of items: contents addressed by reference, with
`next` the next fresh reference.  Used to model the aliasing behaviour
of `sortByReactions`, whose body is `[...items].sort(...)`. -/
structure JsHeap where
  arrays : Nat → List Item
  next : Nat

/-- The spread `[...items]`: allocate a fresh array holding the same
element sequence as the array at `r`, returning the new heap and the
fresh reference. -/
def spreadArray (h : JsHeap) (r : Nat) : JsHeap × Nat :=
  (⟨Function.update h.arrays h.next (h.arrays r), h.next + 1⟩, h.next)

/-- The in-place `.sort(comparator)`: replace the contents at `r` by the
sorted sequence. -/
def sortInPlace (h : JsHeap) (r : Nat) : JsHeap :=
  ⟨Function.update h.arrays r (sortByReactions (h.arrays r)), h.next⟩

/-- Embedding of `sortByReactions` at the heap level:
spread the argument array into a fresh one, sort that copy in place,
and return its reference. -/
def sortByReactionsRef (h : JsHeap) (r : Nat) : JsHeap × Nat :=
  let s := spreadArray h r
  (sortInPlace s.1 s.2, s.2)

/-- Sample item with a given positive-reaction count and number; the
fields irrelevant to sorting are blank. -/
def sItem (pos num : Int) : Item := ⟨num, "", "", "", "", ⟨0, pos, 0⟩⟩

/-- The sorting example of the spec: positive counts [3, 7, 7, 1] and
numbers [10, 20, 5, 1]. -/
def c8Input : List Item := [sItem 3 10, sItem 7 20, sItem 7 5, sItem 1 1]

/-- Expected order for the sorting example: numbers [20, 5, 10, 1]. -/
def c8Expected : List Item := [sItem 7 20, sItem 7 5, sItem 3 10, sItem 1 1]

/-- A node whose reported total (0) is smaller than the sum of its
group counts: a THUMBS_UP group of 5. -/
def c3Node : RawNode := ⟨0, "", "", "", "", 0, some [⟨"THUMBS_UP", 5⟩]⟩

/-- A server-consistent node: total 10, THUMBS_UP 5 and CONFUSED 2. -/
def c3WitnessNode : RawNode :=
  ⟨0, "", "", "", "", 10, some [⟨"THUMBS_UP", 5⟩, ⟨"CONFUSED", 2⟩]⟩

/-- A raw node with no reactions, used to populate sample pages. -/
def sampleNode : RawNode := ⟨1, "", "", "OPEN", "", 0, some []⟩

/-- A clean single-kind page holding one node and announcing a next page. -/
def fullPageServer : Nat → HttpResp KindResponse :=
  fun _ => ⟨200, ⟨[], some ⟨[sampleNode], ⟨true, some "c"⟩⟩⟩⟩

/-- A clean single-kind page holding one node and announcing no next page. -/
def onePageServer : Nat → HttpResp KindResponse :=
  fun _ => ⟨200, ⟨[], some ⟨[sampleNode], ⟨false, none⟩⟩⟩⟩

/-- A count response reporting one issue and no pull requests. -/
def c9CountResp : HttpResp CountResponse := ⟨200, ⟨[], some ⟨1, 0⟩⟩⟩

/-- A page response with HTTP 200, no GraphQL errors, and no
repository object in the data. -/
def noRepoKindServer : Nat → HttpResp KindResponse :=
  fun _ => ⟨200, ⟨[], none⟩⟩

/-- A count response reporting one issue and one pull request. -/
def c7CountResp : HttpResp CountResponse := ⟨200, ⟨[], some ⟨1, 1⟩⟩⟩

/-- A count response with HTTP status 500. -/
def countResp500 : HttpResp CountResponse := ⟨500, ⟨[], none⟩⟩

/-- A single-kind server that always answers HTTP 401. -/
def kindServer401 : Nat → HttpResp KindResponse := fun _ => ⟨401, ⟨[], none⟩⟩

/-- A combined-query server that always answers HTTP 403. -/
def combinedServer403 : Nat → HttpResp CombinedResponse := fun _ => ⟨403, ⟨[], none⟩⟩

/-- A heap with one allocated array (reference 0). -/
def c10Heap : JsHeap := ⟨fun _ => [sItem 3 10, sItem 7 20], 1⟩

/-- A combined-query server answering one clean page with one issue and
one pull request and no further pages. -/
def combinedOnePage : Nat → HttpResp CombinedResponse :=
  fun _ => ⟨200, ⟨[], some ⟨⟨[sampleNode], ⟨false, none⟩⟩,
    ⟨[sampleNode], ⟨false, none⟩⟩⟩⟩⟩

/-- A count response with HTTP 200, no errors, and no repository. -/
def noRepoCountResp : HttpResp CountResponse := ⟨200, ⟨[], none⟩⟩

/-! ## Reaction aggregator -/

lemma isPositiveContent_iff (s : String) :
    isPositiveContent s = true ↔
      (s = "THUMBS_UP" ∨ s = "HEART" ∨ s = "HOORAY" ∨
        s = "ROCKET" ∨ s = "EYES" ∨ s = "LAUGH") := by
  simp [isPositiveContent, or_assoc]

lemma isNegativeContent_iff (s : String) :
    isNegativeContent s = true ↔ (s = "THUMBS_DOWN" ∨ s = "CONFUSED") := by
  simp [isNegativeContent]

lemma pos_not_neg (s : String) (h : isPositiveContent s = true) :
    isNegativeContent s = false := by
  rw [isPositiveContent_iff] at h
  rcases h with h | h | h | h | h | h <;> subst h <;> decide

lemma reactionStep_eq (acc : Int × Int) (g : ReactionGroup) :
    reactionStep acc g =
      if isPositiveContent g.content then (acc.1 + g.count, acc.2)
      else if isNegativeContent g.content then (acc.1, acc.2 + g.count)
      else acc := by
  unfold reactionStep
  by_cases h1 : isPositiveContent g.content = true
  · rw [if_pos ((isPositiveContent_iff g.content).mp h1), if_pos h1]
  · rw [if_neg (fun hd => h1 ((isPositiveContent_iff g.content).mpr hd)),
      if_neg h1]
    by_cases h2 : isNegativeContent g.content = true
    · rw [if_pos ((isNegativeContent_iff g.content).mp h2), if_pos h2]
    · rw [if_neg (fun hd => h2 ((isNegativeContent_iff g.content).mpr hd)),
        if_neg h2]

lemma foldl_reactionStep (gs : List ReactionGroup) (p n : Int) :
    gs.foldl reactionStep (p, n) = (p + posSum gs, n + negSum gs) := by
  induction gs generalizing p n with
  | nil => simp [posSum, negSum, groupCountSum]
  | cons g gs ih =>
    have hstep := reactionStep_eq (p, n) g
    by_cases hp : isPositiveContent g.content = true
    · have hn := pos_not_neg _ hp
      simp [List.foldl_cons, hstep, hp, hn, ih, posSum, negSum, groupCountSum,
        List.filter_cons]
      omega
    · by_cases hn : isNegativeContent g.content = true
      · simp [List.foldl_cons, hstep, hp, hn, ih, posSum, negSum, groupCountSum,
          List.filter_cons]
        omega
      · simp [List.foldl_cons, hstep, hp, hn, ih, posSum, negSum, groupCountSum,
          List.filter_cons]

lemma calculateReactionCounts_eq (node : RawNode) :
    calculateReactionCounts node =
      ⟨node.reactionsTotalCount, posSum (node.reactionGroups.getD []),
        negSum (node.reactionGroups.getD [])⟩ := by
  unfold calculateReactionCounts
  rw [foldl_reactionStep]
  simp

lemma posSum_nonneg (gs : List ReactionGroup) (h : ∀ g ∈ gs, 0 ≤ g.count) :
    0 ≤ posSum gs := by
  unfold posSum groupCountSum
  apply List.sum_nonneg
  intro x hx
  obtain ⟨g, hg, rfl⟩ := List.mem_map.mp hx
  exact h g (List.mem_of_mem_filter hg)

lemma negSum_nonneg (gs : List ReactionGroup) (h : ∀ g ∈ gs, 0 ≤ g.count) :
    0 ≤ negSum gs := by
  unfold negSum groupCountSum
  apply List.sum_nonneg
  intro x hx
  obtain ⟨g, hg, rfl⟩ := List.mem_map.mp hx
  exact h g (List.mem_of_mem_filter hg)

lemma posSum_add_negSum_le (gs : List ReactionGroup)
    (h : ∀ g ∈ gs, 0 ≤ g.count) :
    posSum gs + negSum gs ≤ groupCountSum gs := by
  induction gs with
  | nil => simp [posSum, negSum, groupCountSum]
  | cons g gs ih =>
    have hg : (0 : Int) ≤ g.count := h g (List.mem_cons_self g gs)
    have ih' := ih fun x hx => h x (List.mem_cons_of_mem _ hx)
    by_cases hp : isPositiveContent g.content = true
    · have hn := pos_not_neg _ hp
      simp [posSum, negSum, groupCountSum, List.filter_cons, hp, hn] at *
      omega
    · by_cases hn : isNegativeContent g.content = true
      · simp [posSum, negSum, groupCountSum, List.filter_cons, hp, hn] at *
        omega
      · simp [posSum, negSum, groupCountSum, List.filter_cons, hp, hn] at *
        omega

/-- C4: `calculateReactionCounts` is a pure total function; its
`positiveCount` is exactly the summed count of the groups whose content
is one of THUMBS_UP, HEART, HOORAY, ROCKET, EYES, LAUGH, its
`negativeCount` exactly that of THUMBS_DOWN and CONFUSED, every other
content kind is ignored, `totalCount` is copied from the node, an
absent group list behaves as the empty list, and a THUMBS_UP-5 /
CONFUSED-2 input yields positiveCount 5 and negativeCount 2 for every
totalCount. -/
theorem c4_reaction_classification (node : RawNode) :
    (calculateReactionCounts node).totalCount = node.reactionsTotalCount ∧
    (∀ s : String, isPositiveContent s = true ↔ s ∈ positiveContents) ∧
    (∀ s : String, isNegativeContent s = true ↔ s ∈ negativeContents) ∧
    (calculateReactionCounts node).positiveCount =
      groupCountSum ((node.reactionGroups.getD []).filter
        fun g => isPositiveContent g.content) ∧
    (calculateReactionCounts node).negativeCount =
      groupCountSum ((node.reactionGroups.getD []).filter
        fun g => isNegativeContent g.content) ∧
    calculateReactionCounts
        ⟨node.number, node.title, node.url, node.state, node.createdAt,
          node.reactionsTotalCount, none⟩ =
      calculateReactionCounts
        ⟨node.number, node.title, node.url, node.state, node.createdAt,
          node.reactionsTotalCount, some []⟩ ∧
    ∀ t : Int,
      calculateReactionCounts ⟨0, "", "", "", "", t,
        some [⟨"THUMBS_UP", 5⟩, ⟨"CONFUSED", 2⟩]⟩ = ⟨t, 5, 2⟩ := by
  refine ⟨by simp [calculateReactionCounts_eq], ?_, ?_, ?_, ?_, ?_, ?_⟩
  · intro s
    rw [isPositiveContent_iff]
    simp [positiveContents]
  · intro s
    rw [isNegativeContent_iff]
    simp [negativeContents]
  · rw [calculateReactionCounts_eq]; rfl
  · rw [calculateReactionCounts_eq]; rfl
  · simp [calculateReactionCounts_eq]
  · intro t
    simp [calculateReactionCounts, reactionStep]

/-- C3 counterexample: the claim quantifies over every `totalCount`, but
`calculateReactionCounts` copies `totalCount` through unchanged, so a
node with `reactions.totalCount = 0` and a THUMBS_UP group of count 5
(all group counts non-negative) yields positiveCount 5, negativeCount 0
and totalCount 0, violating positiveCount + negativeCount ≤ totalCount. -/
theorem c3_counterexample :
    (calculateReactionCounts c3Node).positiveCount = 5 ∧
    (calculateReactionCounts c3Node).negativeCount = 0 ∧
    (calculateReactionCounts c3Node).totalCount = 0 ∧
    ¬((calculateReactionCounts c3Node).positiveCount +
        (calculateReactionCounts c3Node).negativeCount ≤
      (calculateReactionCounts c3Node).totalCount) := by
  decide

/-- C3 (amended): for every raw node whose group counts are
non-negative and whose reported `totalCount` is at least the sum of the
group counts (as for server-consistent data), the computed summary
satisfies 0 ≤ positiveCount, 0 ≤ negativeCount and
positiveCount + negativeCount ≤ totalCount. -/
theorem c3_reaction_invariant (node : RawNode)
    (hcounts : ∀ g ∈ node.reactionGroups.getD [], 0 ≤ g.count)
    (htotal : groupCountSum (node.reactionGroups.getD []) ≤
      node.reactionsTotalCount) :
    0 ≤ (calculateReactionCounts node).positiveCount ∧
    0 ≤ (calculateReactionCounts node).negativeCount ∧
    (calculateReactionCounts node).positiveCount +
        (calculateReactionCounts node).negativeCount ≤
      (calculateReactionCounts node).totalCount := by
  rw [calculateReactionCounts_eq]
  refine ⟨posSum_nonneg _ hcounts, negSum_nonneg _ hcounts, ?_⟩
  exact le_trans (posSum_add_negSum_le _ hcounts) htotal

/-- C3 witness: the amended invariant at a concrete consistent node. -/
theorem c3_reaction_invariant_witness :
    0 ≤ (calculateReactionCounts c3WitnessNode).positiveCount ∧
    0 ≤ (calculateReactionCounts c3WitnessNode).negativeCount ∧
    (calculateReactionCounts c3WitnessNode).positiveCount +
        (calculateReactionCounts c3WitnessNode).negativeCount ≤
      (calculateReactionCounts c3WitnessNode).totalCount :=
  c3_reaction_invariant c3WitnessNode (by decide) (by decide)

/-! ## Query builders -/

/-- C5: the four query builders share one state mapping — open gives
issues [OPEN] and PRs [OPEN]; closed gives issues [CLOSED] and PRs
[CLOSED, MERGED]; every other filter value (including "all", the
default arm) gives issues [OPEN, CLOSED] and PRs
[OPEN, CLOSED, MERGED] — and the combined, count-only, issues-only and
PRs-only builders agree on every filter value. -/
theorem c5_state_mapping (s : String) :
    (buildQueryIssueStates s = buildCountQueryIssueStates s ∧
      buildQueryIssueStates s = buildIssuesQueryStates s ∧
      buildQueryPrStates s = buildCountQueryPrStates s ∧
      buildQueryPrStates s = buildPullRequestsQueryStates s) ∧
    (buildQueryIssueStates "open" = "[OPEN]" ∧
      buildQueryPrStates "open" = "[OPEN]") ∧
    (buildQueryIssueStates "closed" = "[CLOSED]" ∧
      buildQueryPrStates "closed" = "[CLOSED, MERGED]") ∧
    (s ≠ "open" → s ≠ "closed" →
      buildQueryIssueStates s = "[OPEN, CLOSED]" ∧
        buildQueryPrStates s = "[OPEN, CLOSED, MERGED]") := by
  refine ⟨⟨rfl, rfl, rfl, rfl⟩, by decide, by decide, ?_⟩
  intro h1 h2
  simp [buildQueryIssueStates, buildQueryPrStates, h1, h2]

/-- C5 witness: the default arm at the filter value "all". -/
theorem c5_state_mapping_witness :
    buildQueryIssueStates "all" = "[OPEN, CLOSED]" ∧
      buildQueryPrStates "all" = "[OPEN, CLOSED, MERGED]" :=
  (c5_state_mapping "all").2.2.2 (by decide) (by decide)

/-! ## Sorting -/

lemma itemLe_iff (a b : Item) :
    itemLe a b ↔
      (b.reactions.positiveCount < a.reactions.positiveCount ∨
        (b.reactions.positiveCount = a.reactions.positiveCount ∧
          b.number ≤ a.number)) := by
  unfold itemLe compareItems
  split_ifs with h <;> omega

/-- C8: `sortByReactions` returns a permutation of its input ordered by
`reactions.positiveCount` descending with ties broken by `number`
descending, and on the spec's example — positive counts [3, 7, 7, 1]
with numbers [10, 20, 5, 1] — produces the items in number order
[20, 5, 10, 1]. -/
theorem c8_sort_order :
    (∀ items : List Item,
      (sortByReactions items).Perm items ∧
      (sortByReactions items).Pairwise (fun a b =>
        b.reactions.positiveCount < a.reactions.positiveCount ∨
          (b.reactions.positiveCount = a.reactions.positiveCount ∧
            b.number ≤ a.number))) ∧
    sortByReactions c8Input = c8Expected := by
  constructor
  · intro items
    refine ⟨List.perm_insertionSort itemLe items, ?_⟩
    have h := List.sorted_insertionSort itemLe items
    exact List.Pairwise.imp (fun hab => (itemLe_iff _ _).mp hab) h
  · decide

/-- C10: at the heap level, `sortByReactionsRef` returns a reference
distinct from its argument, leaves the contents of every previously
allocated array (in particular the input) unchanged, and the fresh
array holds the sorted sequence of the input's elements. -/
theorem c10_sort_no_mutation (h : JsHeap) (r : Nat) (hr : r < h.next) :
    (sortByReactionsRef h r).2 ≠ r ∧
    ((sortByReactionsRef h r).1).arrays r = h.arrays r ∧
    (∀ r', r' < h.next → ((sortByReactionsRef h r).1).arrays r' = h.arrays r') ∧
    ((sortByReactionsRef h r).1).arrays (sortByReactionsRef h r).2 =
      sortByReactions (h.arrays r) := by
  have hmain : ∀ r', r' < h.next →
      ((sortByReactionsRef h r).1).arrays r' = h.arrays r' := by
    intro r' hr'
    have hne : r' ≠ h.next := by omega
    simp [sortByReactionsRef, spreadArray, sortInPlace, Function.update_noteq hne]
  refine ⟨by simp [sortByReactionsRef, spreadArray, sortInPlace]; omega,
    hmain r hr, hmain, ?_⟩
  simp [sortByReactionsRef, spreadArray, sortInPlace, Function.update_same]

/-- C10 witness: the frame property at a concrete one-array heap. -/
theorem c10_sort_no_mutation_witness :
    (sortByReactionsRef c10Heap 0).2 ≠ 0 ∧
    ((sortByReactionsRef c10Heap 0).1).arrays 0 = c10Heap.arrays 0 ∧
    (∀ r', r' < c10Heap.next →
      ((sortByReactionsRef c10Heap 0).1).arrays r' = c10Heap.arrays r') ∧
    ((sortByReactionsRef c10Heap 0).1).arrays (sortByReactionsRef c10Heap 0).2 =
      sortByReactions (c10Heap.arrays 0) :=
  c10_sort_no_mutation c10Heap 0 (by decide)

/-! ## Transport and per-kind pagination -/

lemma makeGraphQLRequest_ok {α : Type} (r : HttpResp α)
    (hok : httpOk r.status = true) : makeGraphQLRequest r = .ok r.body := by
  unfold makeGraphQLRequest
  rw [if_pos hok]

lemma makeGraphQLRequest_bad {α : Type} (r : HttpResp α)
    (hbad : httpOk r.status = false) :
    makeGraphQLRequest r = .error (statusErrorMessage r.status) := by
  unfold makeGraphQLRequest statusErrorMessage
  rw [hbad, if_neg (by simp)]
  split_ifs <;> rfl

lemma cleanPage_destruct (r : HttpResp KindResponse) (h : CleanPage r) :
    makeGraphQLRequest r = .ok r.body ∧ r.body.errors = [] ∧
      r.body.repository = some (pageConn r) := by
  obtain ⟨h1, h2, h3⟩ := h
  refine ⟨makeGraphQLRequest_ok r h1, h2, ?_⟩
  unfold pageConn
  cases hr : r.body.repository with
  | none => rw [hr] at h3; simp at h3
  | some c => simp [hr]

lemma kindLoop_http_error (server : Nat → HttpResp KindResponse)
    (i acc : Nat) (cursor : Option String) (rem : Nat)
    (hbad : httpOk (server i).status = false) :
    kindLoop server i acc cursor (rem + 1) =
      ⟨.failure (handleFetchError (statusErrorMessage (server i).status)), 1, []⟩ := by
  simp only [kindLoop, makeGraphQLRequest_bad (server i) hbad]

lemma kindLoop_missing_repo (server : Nat → HttpResp KindResponse)
    (i acc : Nat) (cursor : Option String) (rem : Nat)
    (hok : httpOk (server i).status = true)
    (herr : (server i).body.errors = [])
    (hrepo : (server i).body.repository = none) :
    kindLoop server i acc cursor (rem + 1) =
      ⟨.failure ⟨"Repository not found", .UNKNOWN⟩, 1, []⟩ := by
  simp only [kindLoop, makeGraphQLRequest_ok (server i) hok, herr, hrepo]
  decide

lemma kindLoop_events_mono (server : Nat → HttpResp KindResponse) :
    ∀ (rem i acc : Nat) (cursor : Option String),
      List.Chain' (· ≤ ·) (acc :: (kindLoop server i acc cursor rem).events) := by
  intro rem
  induction rem with
  | zero => intro i acc cursor; simp [kindLoop]
  | succ rem ih =>
    intro i acc cursor
    cases hreq : makeGraphQLRequest (server i) with
    | error msg => simp [kindLoop, hreq]
    | ok resp =>
      cases herr : resp.errors with
      | cons e es => simp [kindLoop, hreq, herr]
      | nil =>
        cases hrepo : resp.repository with
        | none => simp [kindLoop, hreq, herr, hrepo]
        | some conn =>
          by_cases hemp : conn.nodes.isEmpty = true
          · simp [kindLoop, hreq, herr, hrepo, hemp]
          · simp only [kindLoop, hreq, herr, hrepo]
            rw [if_neg hemp]
            by_cases hnext : conn.pageInfo.hasNextPage = true
            · rw [if_pos hnext]
              have ihx := ih (i + 1)
                (acc + (conn.nodes.map transformNode).length)
                conn.pageInfo.endCursor
              cases hout : (kindLoop server (i + 1)
                  (acc + (conn.nodes.map transformNode).length)
                  conn.pageInfo.endCursor rem).outcome with
              | success rest =>
                simp only [hout]
                exact List.chain'_cons.mpr ⟨Nat.le_add_right _ _, ihx⟩
              | failure e =>
                simp only [hout]
                exact List.chain'_cons.mpr ⟨Nat.le_add_right _ _, ihx⟩
            · rw [if_neg hnext]
              simp [List.chain'_cons]

lemma kindLoop_clean (server : Nat → HttpResp KindResponse)
    (hclean : ∀ j, CleanPage (server j)) :
    ∀ (rem i acc : Nat) (cursor : Option String),
      (kindLoop server i acc cursor rem).requests ≤ rem ∧
      (rem ≠ 0 → 1 ≤ (kindLoop server i acc cursor rem).requests) ∧
      (kindLoop server i acc cursor rem).outcome =
        .success (collectPages server i (kindLoop server i acc cursor rem).requests) ∧
      ((kindLoop server i acc cursor rem).requests < rem →
        (pageConn (server (i + (kindLoop server i acc cursor rem).requests - 1))).pageInfo.hasNextPage = false ∨
          (pageConn (server (i + (kindLoop server i acc cursor rem).requests - 1))).nodes = []) ∧
      ((∀ j, j + 1 < rem →
          (pageConn (server (i + j))).nodes ≠ [] ∧
            (pageConn (server (i + j))).pageInfo.hasNextPage = true) →
        (kindLoop server i acc cursor rem).requests = rem) ∧
      ((∀ j, j < (kindLoop server i acc cursor rem).requests →
          (pageConn (server (i + j))).nodes ≠ []) →
        (kindLoop server i acc cursor rem).events.length =
          (kindLoop server i acc cursor rem).requests) := by
  intro rem
  induction rem with
  | zero =>
    intro i acc cursor
    exact ⟨Nat.le_refl 0, fun h => absurd rfl h, rfl,
      fun h => absurd h (Nat.lt_irrefl 0), fun _ => rfl, fun _ => rfl⟩
  | succ rem ih =>
    intro i acc cursor
    obtain ⟨hreq, herr, hrepo⟩ := cleanPage_destruct _ (hclean i)
    simp only [kindLoop, hreq, herr, hrepo]
    by_cases hemp : (pageConn (server i)).nodes.isEmpty = true
    · have hnil : (pageConn (server i)).nodes = [] := by
        simpa using hemp
      rw [if_pos hemp]
      dsimp only
      refine ⟨by omega, fun _ => Nat.le_refl 1, ?_, ?_, ?_, ?_⟩
      · simp [collectPages, hnil]
      · intro _
        have hidx : i + 1 - 1 = i := by omega
        rw [hidx]
        exact Or.inr hnil
      · intro hfull
        by_cases hrem : rem = 0
        · omega
        · exfalso
          have h0 := hfull 0 (by omega)
          rw [Nat.add_zero] at h0
          exact h0.1 hnil
      · intro hne
        exfalso
        have h0 := hne 0 (by omega)
        rw [Nat.add_zero] at h0
        exact h0 hnil
    · rw [if_neg hemp]
      by_cases hnext : (pageConn (server i)).pageInfo.hasNextPage = true
      · rw [if_pos hnext]
        obtain ⟨ihle, ihone, ihout, ihterm, ihfull, ihevlen⟩ :=
          ih (i + 1) (acc + ((pageConn (server i)).nodes.map transformNode).length)
            (pageConn (server i)).pageInfo.endCursor
        simp only [ihout]
        refine ⟨by omega, fun _ => by omega, ?_, ?_, ?_, ?_⟩
        · simp [collectPages]
        · intro hlt
          have hone := ihone (by omega)
          have hidx : i +
              ((kindLoop server (i + 1)
                (acc + ((pageConn (server i)).nodes.map transformNode).length)
                (pageConn (server i)).pageInfo.endCursor rem).requests + 1) - 1 =
              i + 1 +
              (kindLoop server (i + 1)
                (acc + ((pageConn (server i)).nodes.map transformNode).length)
                (pageConn (server i)).pageInfo.endCursor rem).requests - 1 := by
            omega
          rw [hidx]
          exact ihterm (by omega)
        · intro hfull
          have hfull' : ∀ j, j + 1 < rem →
              (pageConn (server (i + 1 + j))).nodes ≠ [] ∧
                (pageConn (server (i + 1 + j))).pageInfo.hasNextPage = true := by
            intro j hj
            have hx := hfull (j + 1) (by omega)
            have hidx : i + (j + 1) = i + 1 + j := by omega
            rwa [hidx] at hx
          rw [ihfull hfull']
        · intro hne
          have hne' : ∀ j, j <
              (kindLoop server (i + 1)
                (acc + ((pageConn (server i)).nodes.map transformNode).length)
                (pageConn (server i)).pageInfo.endCursor rem).requests →
              (pageConn (server (i + 1 + j))).nodes ≠ [] := by
            intro j hj
            have hx := hne (j + 1) (by omega)
            have hidx : i + (j + 1) = i + 1 + j := by omega
            rwa [hidx] at hx
          rw [List.length_cons, ihevlen hne']
      · rw [if_neg hnext]
        have hfalse : (pageConn (server i)).pageInfo.hasNextPage = false := by
          rwa [Bool.not_eq_true] at hnext
        dsimp only
        refine ⟨by omega, fun _ => Nat.le_refl 1, ?_, ?_, ?_, fun _ => rfl⟩
        · simp [collectPages]
        · intro _
          have hidx : i + 1 - 1 = i := by omega
          rw [hidx]
          exact Or.inl hfalse
        · intro hfull
          by_cases hrem : rem = 0
          · omega
          · exfalso
            have h0 := hfull 0 (by omega)
            rw [Nat.add_zero] at h0
            rw [h0.2] at hfalse
            simp at hfalse

/-! ## Combined-query pagination and the orchestrators -/

lemma loopA_run_spec (server : Nat → HttpResp CombinedResponse) :
    ∀ (fuel i : Nat) (aI aP : List Item) (iC pC : Option String) (hI hP : Bool)
      (res : FetchResult) (evs : List (Nat × Nat)) (n : Nat),
      loopA server fuel i aI aP iC pC hI hP = some (res, evs, n) →
      (∀ e, res.error = some e → res.issues = [] ∧ res.pullRequests = []) ∧
      List.Chain' (fun a b : Nat × Nat => a.1 ≤ b.1 ∧ a.2 ≤ b.2)
        ((aI.length, aP.length) :: evs) ∧
      (res.error = none → evs.length = n) := by
  intro fuel
  induction fuel with
  | zero =>
    intro i aI aP iC pC hI hP res evs n hsome
    rw [loopA] at hsome
    split at hsome
    · simp only [Option.some.injEq, Prod.mk.injEq] at hsome
      obtain ⟨h1, h2, h3⟩ := hsome
      subst h1; subst h2; subst h3
      exact ⟨fun e he => by simp at he, by simp, fun _ => rfl⟩
    · simp at hsome
  | succ fuel ih =>
    intro i aI aP iC pC hI hP res evs n hsome
    rw [loopA] at hsome
    split at hsome
    · simp only [Option.some.injEq, Prod.mk.injEq] at hsome
      obtain ⟨h1, h2, h3⟩ := hsome
      subst h1; subst h2; subst h3
      exact ⟨fun e he => by simp at he, by simp, fun _ => rfl⟩
    · cases hreq : makeGraphQLRequest (server i) with
      | error msg =>
        simp only [hreq, Option.some.injEq, Prod.mk.injEq] at hsome
        obtain ⟨h1, h2, h3⟩ := hsome
        subst h1; subst h2; subst h3
        exact ⟨fun e he => ⟨rfl, rfl⟩, by simp, fun hnone => by simp at hnone⟩
      | ok resp =>
        simp only [hreq] at hsome
        cases herrs : resp.errors with
        | cons e0 es =>
          simp only [herrs] at hsome
          split at hsome <;>
          · simp only [Option.some.injEq, Prod.mk.injEq] at hsome
            obtain ⟨h1, h2, h3⟩ := hsome
            subst h1; subst h2; subst h3
            exact ⟨fun e he => ⟨rfl, rfl⟩, by simp, fun hnone => by simp at hnone⟩
        | nil =>
          simp only [herrs] at hsome
          cases hrepo : resp.repository with
          | none =>
            simp only [hrepo, Option.some.injEq, Prod.mk.injEq] at hsome
            obtain ⟨h1, h2, h3⟩ := hsome
            subst h1; subst h2; subst h3
            exact ⟨fun e he => ⟨rfl, rfl⟩, by simp, fun hnone => by simp at hnone⟩
          | some repo =>
            simp only [hrepo] at hsome
            split at hsome
            · simp at hsome
            · rename_i res' evs' n' heq
              simp only [Option.some.injEq, Prod.mk.injEq] at hsome
              obtain ⟨h1, h2, h3⟩ := hsome
              subst h1; subst h2; subst h3
              obtain ⟨c1, c2, c3⟩ := ih _ _ _ _ _ _ _ _ _ _ heq
              refine ⟨c1, ?_, ?_⟩
              · refine List.chain'_cons.mpr ⟨⟨?_, ?_⟩, c2⟩ <;>
                · dsimp only
                  split <;> simp [List.length_append]
              · intro hnone
                rw [List.length_cons, c3 hnone]

lemma loopA_http_error (server : Nat → HttpResp CombinedResponse)
    (fuel i : Nat) (aI aP : List Item) (iC pC : Option String) (hI hP : Bool)
    (hflag : (hI || hP) = true)
    (hbad : httpOk (server i).status = false) :
    loopA server (fuel + 1) i aI aP iC pC hI hP =
      some (⟨[], [], some (handleFetchError (statusErrorMessage (server i).status))⟩,
        [], 1) := by
  rw [loopA, if_neg (by simp [hflag])]
  simp only [makeGraphQLRequest_bad (server i) hbad]

lemma loopA_missing_repo (server : Nat → HttpResp CombinedResponse)
    (fuel i : Nat) (aI aP : List Item) (iC pC : Option String) (hI hP : Bool)
    (hflag : (hI || hP) = true)
    (hok : httpOk (server i).status = true)
    (herrs : (server i).body.errors = [])
    (hrepo : (server i).body.repository = none) :
    loopA server (fuel + 1) i aI aP iC pC hI hP =
      some (⟨[], [], some ⟨"Repository not found or is private.", .NOT_FOUND⟩⟩,
        [], 1) := by
  rw [loopA, if_neg (by simp [hflag])]
  simp only [makeGraphQLRequest_ok (server i) hok, herrs, hrepo]

lemma fetchAllPagesB_count_http_error (countResp : HttpResp CountResponse)
    (iS pS : Nat → HttpResp KindResponse)
    (hbad : httpOk countResp.status = false) :
    fetchAllPagesB countResp iS pS =
      (⟨[], [], some (handleFetchError (statusErrorMessage countResp.status))⟩, []) := by
  unfold fetchAllPagesB
  simp only [makeGraphQLRequest_bad countResp hbad]

lemma fetchAllPagesB_count_missing_repo (countResp : HttpResp CountResponse)
    (iS pS : Nat → HttpResp KindResponse)
    (hok : httpOk countResp.status = true)
    (herrs : countResp.body.errors = [])
    (hrepo : countResp.body.repository = none) :
    fetchAllPagesB countResp iS pS =
      (⟨[], [], some ⟨"Repository not found or is private.", .NOT_FOUND⟩⟩, []) := by
  unfold fetchAllPagesB
  simp only [makeGraphQLRequest_ok countResp hok, herrs, hrepo]

lemma fetchAllPagesB_error_empty (countResp : HttpResp CountResponse)
    (iS pS : Nat → HttpResp KindResponse) (e : APIError) :
    (fetchAllPagesB countResp iS pS).1.error = some e →
      (fetchAllPagesB countResp iS pS).1.issues = [] ∧
        (fetchAllPagesB countResp iS pS).1.pullRequests = [] := by
  intro herr
  unfold fetchAllPagesB at herr ⊢
  cases hreq : makeGraphQLRequest countResp with
  | error msg => simp only [hreq]; exact ⟨trivial, trivial⟩
  | ok resp =>
    simp only [hreq] at herr ⊢
    cases herrs : resp.errors with
    | cons e0 es =>
      simp only [herrs] at herr ⊢
      by_cases ht : e0.type = some "NOT_FOUND"
      · rw [if_pos ht]; exact ⟨rfl, rfl⟩
      · rw [if_neg ht]; exact ⟨rfl, rfl⟩
    | nil =>
      simp only [herrs] at herr ⊢
      cases hrepo : resp.repository with
      | none => simp only [hrepo]; exact ⟨trivial, trivial⟩
      | some counts =>
        simp only [hrepo] at herr ⊢
        cases hout : (fetchAllIssuesParallel counts.issuesTotalCount iS).outcome with
        | failure eI => simp only [hout]; exact ⟨trivial, trivial⟩
        | success isL =>
          simp only [hout] at herr ⊢
          cases hout2 : (fetchAllPullRequestsParallel counts.prsTotalCount pS).outcome with
          | failure eP => simp only [hout2]; exact ⟨trivial, trivial⟩
          | success psL =>
            simp only [hout2] at herr
            simp at herr

/-! ## Claim theorems on pagination -/

/-- C1: in a Strategy B per-kind fetch with server-reported total N and
clean page responses, a zero total issues no page request and returns
the empty list; a nonzero total issues at least one and at most
ceil(N / 100) page requests, the result is the concatenation, in the
order received, of the transformed node lists of the pages consumed,
the loop stops short of ceil(N / 100) only when the page just received
reports hasNextPage = false or carries no nodes, and when no page does
so before the bound, exactly ceil(N / 100) requests are issued; the
pull-request loop is the same function as the issues loop. -/
theorem c1_pagination_strategyB (N : Nat) (server : Nat → HttpResp KindResponse)
    (hclean : ∀ j, CleanPage (server j)) :
    (∀ (tc : Nat) (srv : Nat → HttpResp KindResponse),
      fetchAllPullRequestsParallel tc srv = fetchAllIssuesParallel tc srv) ∧
    (N = 0 → fetchAllIssuesParallel N server = ⟨.success [], 0, []⟩) ∧
    (N ≠ 0 →
      1 ≤ (fetchAllIssuesParallel N server).requests ∧
      (fetchAllIssuesParallel N server).requests ≤ (N + 99) / 100 ∧
      (fetchAllIssuesParallel N server).outcome =
        .success (collectPages server 0 (fetchAllIssuesParallel N server).requests) ∧
      ((fetchAllIssuesParallel N server).requests < (N + 99) / 100 →
        (pageConn (server ((fetchAllIssuesParallel N server).requests - 1))).pageInfo.hasNextPage = false ∨
          (pageConn (server ((fetchAllIssuesParallel N server).requests - 1))).nodes = []) ∧
      ((∀ j, j + 1 < (N + 99) / 100 →
          (pageConn (server j)).nodes ≠ [] ∧
            (pageConn (server j)).pageInfo.hasNextPage = true) →
        (fetchAllIssuesParallel N server).requests = (N + 99) / 100)) := by
  refine ⟨fun tc srv => rfl, fun h0 => by simp [fetchAllIssuesParallel, h0], ?_⟩
  intro hN
  have hdef : fetchAllIssuesParallel N server =
      kindLoop server 0 0 none ((N + 99) / 100) := by
    unfold fetchAllIssuesParallel
    rw [if_neg hN]
    have h99 : N + 100 - 1 = N + 99 := by omega
    rw [h99]
  obtain ⟨hle, hone, hout, hterm, hfull, _⟩ :=
    kindLoop_clean server hclean ((N + 99) / 100) 0 0 none
  rw [hdef]
  have hrem : (N + 99) / 100 ≠ 0 := by omega
  refine ⟨hone hrem, hle, hout, ?_, ?_⟩
  · intro hlt
    simpa using hterm hlt
  · intro hfp
    apply hfull
    intro j hj
    simpa using hfp j hj

/-- C1 witness: zero total needs zero requests, and under an
all-full-pages clean server a total of 250 issues exactly three
requests. -/
theorem c1_pagination_strategyB_witness :
    fetchAllIssuesParallel 0 fullPageServer = ⟨.success [], 0, []⟩ ∧
    (fetchAllIssuesParallel 250 fullPageServer).requests = 3 := by
  have hcln : ∀ j, CleanPage (fullPageServer j) := fun j => ⟨rfl, rfl, rfl⟩
  constructor
  · exact (c1_pagination_strategyB 0 fullPageServer hcln).2.1 rfl
  · have h := (c1_pagination_strategyB 250 fullPageServer hcln).2.2 (by omega)
    have h3 := h.2.2.2.2
      (fun j hj => ⟨by simp [fullPageServer, pageConn, sampleNode], rfl⟩)
    rw [h3]

/-- C2: whenever a fetch outcome carries an error, both result lists
are empty — for the count-first pipeline, for the combined-query loop
started from any intermediate state (so a failure discards every item
already accumulated), and for the combined-query fetch as a whole. -/
theorem c2_error_empty_lists :
    (∀ (countResp : HttpResp CountResponse)
      (iS pS : Nat → HttpResp KindResponse) (e : APIError),
      (fetchAllPagesB countResp iS pS).1.error = some e →
        (fetchAllPagesB countResp iS pS).1.issues = [] ∧
          (fetchAllPagesB countResp iS pS).1.pullRequests = []) ∧
    (∀ (server : Nat → HttpResp CombinedResponse) (fuel i : Nat)
      (aI aP : List Item) (iC pC : Option String) (hI hP : Bool)
      (res : FetchResult) (evs : List (Nat × Nat)) (n : Nat) (e : APIError),
      loopA server fuel i aI aP iC pC hI hP = some (res, evs, n) →
      res.error = some e → res.issues = [] ∧ res.pullRequests = []) ∧
    (∀ (server : Nat → HttpResp CombinedResponse) (fuel : Nat)
      (res : FetchResult) (evs : List (Nat × Nat)) (n : Nat) (e : APIError),
      fetchAllPagesA server fuel = some (res, evs, n) →
      res.error = some e → res.issues = [] ∧ res.pullRequests = []) := by
  refine ⟨fetchAllPagesB_error_empty, ?_, ?_⟩
  · intro server fuel i aI aP iC pC hI hP res evs n e hsome herr
    exact (loopA_run_spec server fuel i aI aP iC pC hI hP res evs n hsome).1 e herr
  · intro server fuel res evs n e hsome herr
    exact (loopA_run_spec server fuel 0 [] [] none none true true res evs n hsome).1 e herr

/-- C2 witness: a failing count request leaves both lists empty. -/
theorem c2_error_empty_lists_witness :
    (fetchAllPagesB countResp500 kindServer401 kindServer401).1.issues = [] ∧
      (fetchAllPagesB countResp500 kindServer401 kindServer401).1.pullRequests = [] :=
  c2_error_empty_lists.1 countResp500 kindServer401 kindServer401
    ⟨"Network error. Please check your connection and try again.", .NETWORK⟩ (by decide)

/-- C6: a non-2xx HTTP status is mapped to UNAUTHORIZED for 401,
RATE_LIMIT for 403 and NETWORK otherwise; the transport throws exactly
that message, the count request, the per-kind page loop at any point
and the combined loop at any point all surface the mapped error with
both lists empty, and each orchestrator returns its fetch result
unchanged (no exception value escapes: the orchestrators are total
functions into `FetchResult`-carrying outcomes). -/
theorem c6_http_error_mapping :
    (∀ s : Nat, httpOk s = false →
      (handleFetchError (statusErrorMessage s)).type =
        (if s = 401 then ErrorType.UNAUTHORIZED
          else if s = 403 then ErrorType.RATE_LIMIT else ErrorType.NETWORK)) ∧
    (∀ (α : Type) (r : HttpResp α), httpOk r.status = false →
      makeGraphQLRequest r = .error (statusErrorMessage r.status)) ∧
    (∀ (countResp : HttpResp CountResponse) (iS pS : Nat → HttpResp KindResponse),
      httpOk countResp.status = false →
      fetchAllPagesB countResp iS pS =
        (⟨[], [], some (handleFetchError (statusErrorMessage countResp.status))⟩, [])) ∧
    (∀ (server : Nat → HttpResp KindResponse) (i acc : Nat)
      (cursor : Option String) (rem : Nat),
      httpOk (server i).status = false →
      kindLoop server i acc cursor (rem + 1) =
        ⟨.failure (handleFetchError (statusErrorMessage (server i).status)), 1, []⟩) ∧
    (∀ (server : Nat → HttpResp CombinedResponse) (fuel i : Nat)
      (aI aP : List Item) (iC pC : Option String) (hI hP : Bool),
      (hI || hP) = true →
      httpOk (server i).status = false →
      loopA server (fuel + 1) i aI aP iC pC hI hP =
        some (⟨[], [], some (handleFetchError (statusErrorMessage (server i).status))⟩,
          [], 1)) ∧
    (∀ server fuel, fetchRepositoryDataA server fuel = fetchAllPagesA server fuel) ∧
    (∀ countResp iS pS,
      fetchRepositoryDataB countResp iS pS = fetchAllPagesB countResp iS pS) := by
  refine ⟨?_, fun α r h => makeGraphQLRequest_bad r h,
    fun c iS pS h => fetchAllPagesB_count_http_error c iS pS h,
    fun server i acc cursor rem h => kindLoop_http_error server i acc cursor rem h,
    fun server fuel i aI aP iC pC hI hP hf hb =>
      loopA_http_error server fuel i aI aP iC pC hI hP hf hb,
    fun _ _ => rfl, fun _ _ _ => rfl⟩
  intro s hs
  by_cases h1 : s = 401
  · simp [statusErrorMessage, handleFetchError, h1]
  · by_cases h2 : s = 403
    · simp [statusErrorMessage, handleFetchError, h1, h2]
    · simp [statusErrorMessage, handleFetchError, h1, h2]

/-- C6 witness: an HTTP 500 count response yields the NETWORK error
with empty lists. -/
theorem c6_http_error_mapping_witness :
    fetchAllPagesB countResp500 kindServer401 kindServer401 =
      (⟨[], [], some (handleFetchError (statusErrorMessage countResp500.status))⟩, []) :=
  c6_http_error_mapping.2.2.1 countResp500 kindServer401 kindServer401 (by decide)

/-- C7 counterexample: in the count-first variant the orchestrator
callback receives the per-kind cumulative count paired with 0 for the
other kind, so with one issue page and one PR page the trace is
(1, 0) followed by (0, 1) (issues loop scheduled first; under the
opposite schedule the PR coordinate decreases instead): the issues
coordinate decreases from 1 to 0, refuting monotonicity of the
per-kind sequences received by the callback. -/
theorem c7_counterexample :
    (fetchAllPagesB c7CountResp onePageServer onePageServer).2 = [(1, 0), (0, 1)] ∧
    ¬ List.Chain' (fun a b : Nat × Nat => a.1 ≤ b.1)
        (fetchAllPagesB c7CountResp onePageServer onePageServer).2 := by
  have h : (fetchAllPagesB c7CountResp onePageServer onePageServer).2 =
      [(1, 0), (0, 1)] := by decide
  refine ⟨h, ?_⟩
  rw [h]
  simp [List.chain'_cons]

/-- C7 (amended): the combined-query loop invokes the callback once per
iteration with the cumulative `(issuesCount, prsCount)` pair, and those
pairs are monotonically non-decreasing in both coordinates (with the
count of invocations equal to the number of pages on a run without
error); in the count-first variant each kind's inner loop passes its
own monotonically non-decreasing cumulative count, once per nonempty
page ingested — it is only the orchestrator-level pairs, which carry 0
for the other kind, that are not monotone per kind. -/
theorem c7_progress_per_kind :
    (∀ (server : Nat → HttpResp CombinedResponse) (fuel i : Nat)
      (aI aP : List Item) (iC pC : Option String) (hI hP : Bool)
      (res : FetchResult) (evs : List (Nat × Nat)) (n : Nat),
      loopA server fuel i aI aP iC pC hI hP = some (res, evs, n) →
      List.Chain' (fun a b : Nat × Nat => a.1 ≤ b.1 ∧ a.2 ≤ b.2)
        ((aI.length, aP.length) :: evs) ∧
      (res.error = none → evs.length = n)) ∧
    (∀ (server : Nat → HttpResp KindResponse) (rem i acc : Nat)
      (cursor : Option String),
      List.Chain' (· ≤ ·) (acc :: (kindLoop server i acc cursor rem).events)) ∧
    (∀ (server : Nat → HttpResp KindResponse), (∀ j, CleanPage (server j)) →
      ∀ (rem i acc : Nat) (cursor : Option String),
      (∀ j, j < (kindLoop server i acc cursor rem).requests →
        (pageConn (server (i + j))).nodes ≠ []) →
      (kindLoop server i acc cursor rem).events.length =
        (kindLoop server i acc cursor rem).requests) := by
  refine ⟨?_, ?_, ?_⟩
  · intro server fuel i aI aP iC pC hI hP res evs n hsome
    obtain ⟨_, c2, c3⟩ := loopA_run_spec server fuel i aI aP iC pC hI hP res evs n hsome
    exact ⟨c2, c3⟩
  · intro server rem i acc cursor
    exact kindLoop_events_mono server rem i acc cursor
  · intro server hclean rem i acc cursor hne
    exact (kindLoop_clean server hclean rem i acc cursor).2.2.2.2.2 hne

/-- C7 witness: a one-page combined run emits exactly one monotone
progress pair. -/
theorem c7_progress_per_kind_witness :
    List.Chain' (fun a b : Nat × Nat => a.1 ≤ b.1 ∧ a.2 ≤ b.2)
      ((([] : List Item).length, ([] : List Item).length) :: [(1, 1)]) ∧
    ((⟨[transformNode sampleNode], [transformNode sampleNode], none⟩ : FetchResult).error = none →
      ([((1 : Nat), (1 : Nat))] : List (Nat × Nat)).length = 1) :=
  c7_progress_per_kind.1 combinedOnePage 1 0 [] [] none none true true
    ⟨[transformNode sampleNode], [transformNode sampleNode], none⟩ [(1, 1)] 1 (by decide)

/-- C9 counterexample: in the count-first variant, when the count query
succeeds but the first issues page response has no errors and no
repository object, the whole fetch surfaces UNKNOWN with message
"Repository not found" — not NOT_FOUND — so the claim fails for that
response. -/
theorem c9_counterexample :
    (fetchAllPagesB c9CountResp noRepoKindServer onePageServer).1.error =
      some ⟨"Repository not found", .UNKNOWN⟩ ∧
    ErrorType.UNKNOWN ≠ ErrorType.NOT_FOUND := by
  decide

/-- C9 (amended): a response with no errors array and no repository
object yields NOT_FOUND with message "Repository not found or is
private." and empty lists when it answers the combined-query loop (at
any iteration) or the Strategy B count query; when it answers a
Strategy B per-kind page request, the loop instead fails with UNKNOWN
and message "Repository not found". -/
theorem c9_not_found_mapping :
    (∀ (server : Nat → HttpResp CombinedResponse) (fuel i : Nat)
      (aI aP : List Item) (iC pC : Option String) (hI hP : Bool),
      (hI || hP) = true →
      httpOk (server i).status = true →
      (server i).body.errors = [] →
      (server i).body.repository = none →
      loopA server (fuel + 1) i aI aP iC pC hI hP =
        some (⟨[], [], some ⟨"Repository not found or is private.", .NOT_FOUND⟩⟩,
          [], 1)) ∧
    (∀ (countResp : HttpResp CountResponse) (iS pS : Nat → HttpResp KindResponse),
      httpOk countResp.status = true →
      countResp.body.errors = [] →
      countResp.body.repository = none →
      fetchAllPagesB countResp iS pS =
        (⟨[], [], some ⟨"Repository not found or is private.", .NOT_FOUND⟩⟩, [])) ∧
    (∀ (server : Nat → HttpResp KindResponse) (i acc : Nat)
      (cursor : Option String) (rem : Nat),
      httpOk (server i).status = true →
      (server i).body.errors = [] →
      (server i).body.repository = none →
      kindLoop server i acc cursor (rem + 1) =
        ⟨.failure ⟨"Repository not found", .UNKNOWN⟩, 1, []⟩) :=
  ⟨fun server fuel i aI aP iC pC hI hP hf h1 h2 h3 =>
      loopA_missing_repo server fuel i aI aP iC pC hI hP hf h1 h2 h3,
    fun c iS pS h1 h2 h3 => fetchAllPagesB_count_missing_repo c iS pS h1 h2 h3,
    fun server i acc cursor rem h1 h2 h3 =>
      kindLoop_missing_repo server i acc cursor rem h1 h2 h3⟩

/-- C9 witness: a missing repository in the count response yields
NOT_FOUND. -/
theorem c9_not_found_mapping_witness :
    fetchAllPagesB noRepoCountResp onePageServer onePageServer =
      (⟨[], [], some ⟨"Repository not found or is private.", .NOT_FOUND⟩⟩, []) :=
  c9_not_found_mapping.2.1 noRepoCountResp onePageServer onePageServer
    (by decide) (by decide) (by decide)
